import Mathlib

/-!
Verification of the page-transition controller implemented by the
usePageTransition hook in src/components/TransitionWrapper/service.ts.

Shallow-embedding conventions:
* JavaScript strings are Lean String values; String.prototype.startsWith is
  modelled on the underlying character sequence (String.data) with
  List.isPrefixOf, matching the ECMAScript prefix semantics.
* A DOM anchor carries its parsed, normalized URL: link.href is the
  serialization of that URL, and the call new URL(link.href) in the source
  re-parses it.  For the normalized absolute hrefs the DOM exposes, this
  round-trip is the identity, so the model reads the parsed fields directly.
* React semantics are modelled per event: the event handler commits its state
  updates, then each useEffect of the hook re-runs exactly when one of its
  declared dependencies changed, in declaration order; a re-run first executes
  the previous cleanup, which removes the previously registered animationend
  listener.  Refs (pendingPathRef, isFirstMount, wrapperRef) are plain mutable
  fields: writing them triggers no re-render and no effect re-run.
* router.push inside startTransition is modelled as an emitted navigation
  request (the navRequest field of a step result); the resulting path change
  arrives later as a separate pathChange event from the router.
-/

namespace PageTransition

/-- ECMAScript String.prototype.startsWith, on the character sequence. -/
def jsStartsWith (s p : String) : Bool :=
  p.data.isPrefixOf s.data

/-- A parsed, normalized URL as the DOM exposes it (the fields of the
web URL interface that the source reads). An omitted/default port is the
empty string, as in the DOM. -/
structure Url where
  scheme : String
  host : String
  port : String
  pathname : String
  search : String
  hash : String
deriving DecidableEq

/-- The origin serialization scheme://host[:port], as window.location.origin
and the href serialization expose it. -/
def Url.origin (u : Url) : String :=
  u.scheme ++ "://" ++ u.host ++ (if u.port = "" then "" else ":" ++ u.port)

/-- The full href serialization of a URL. -/
def Url.href (u : Url) : String :=
  u.origin ++ u.pathname ++ u.search ++ u.hash

/-- A DOM anchor element; url = none models an anchor with no href
attribute, whose reflected href property is the empty string. -/
structure Anchor where
  url : Option Url
deriving DecidableEq

/-- The reflected href property of an anchor (empty when no URL). -/
def Anchor.href (a : Anchor) : String :=
  match a.url with
  | none => ""
  | some u => u.href

/-- Modelled from the spec glossary: "Same-origin: scheme, host, and port all
match the current document's."  This is the spec-side definition, stated to be
compared against the code-side isSameOriginLink below. -/
def sameOriginSpec (loc u : Url) : Bool :=
  loc.scheme == u.scheme && loc.host == u.host && loc.port == u.port

/-- Source isSameOriginLink: href.startsWith(window.location.origin), where
origin is the current document origin string. -/
def isSameOriginLink (origin href : String) : Bool :=
  jsStartsWith href origin

/-- Source isNavigableLink: rejects anchors with an empty href or an href that
fails isSameOriginLink, otherwise parses the href and compares its pathname
with the current pathname.  The inner none branch is unreachable because an
anchor without a URL has an empty href. -/
def isNavigableLink (origin pathname : String) (link : Anchor) : Bool :=
  if link.href == "" || !(isSameOriginLink origin link.href) then false
  else
    match link.url with
    | some u => u.pathname != pathname
    | none => false

/-- The animation name constants ANIMATION_NAMES.SLIDE_OUT. -/
def SLIDE_OUT : String := "maskFadeOut"

/-- The animation name constants ANIMATION_NAMES.SLIDE_IN. -/
def SLIDE_IN : String := "maskFadeIn"

/-- An animationend event as the handlers observe it: its animationName and
whether the event target equals the element the listener is attached to
(e.target === e.currentTarget). -/
structure AnimEvent where
  animationName : String
  targetIsCurrentTarget : Bool
deriving DecidableEq

/-- Source createAnimationEndHandler: the guard deciding whether the
onComplete callback runs for a given event. -/
def createAnimationEndHandler (animationName : String) (e : AnimEvent) : Bool :=
  e.animationName == animationName && e.targetIsCurrentTarget

/-- A click event, reduced to what the handler reads:
(e.target as HTMLElement).closest("a"). -/
structure ClickEvent where
  closestLink : Option Anchor
deriving DecidableEq

/-- The full state of one mounted usePageTransition instance:
React state (isTransitioning, isEntering), refs (pendingPath, isFirstMount,
whether wrapperRef.current is attached), the observed pathname, and the
animationend listeners currently registered on the wrapper element.  The exit
listener stores the targetPath its closure captured at registration time. -/
structure MachineState where
  isTransitioning : Bool
  isEntering : Bool
  pendingPath : Option String
  isFirstMount : Bool
  pathname : String
  wrapperAttached : Bool
  exitListener : Option String
  entryListener : Bool
deriving DecidableEq

/-- Body of the pathname useEffect (runs when the pathname dependency
changes, and once at mount). -/
def pathnameEffect (s : MachineState) : MachineState :=
  if !s.isFirstMount then
    { s with isEntering := true, isTransitioning := false }
  else
    { s with isFirstMount := false }

/-- Body of the exit-phase useEffect (dependency: isTransitioning; the router
and the memoized handler factory never change).  Running it replaces the
previously registered listener: the guard returning early leaves no listener,
otherwise the new listener captures the current pendingPath as targetPath. -/
def exitEffect (s : MachineState) : MachineState :=
  if s.isTransitioning && s.wrapperAttached && s.pendingPath.isSome then
    { s with exitListener := s.pendingPath }
  else
    { s with exitListener := none }

/-- Body of the entry-phase useEffect (dependency: isEntering). -/
def entryEffect (s : MachineState) : MachineState :=
  if s.isEntering && s.wrapperAttached then
    { s with entryListener := true }
  else
    { s with entryListener := false }

/-- Result of dispatching one click event: the committed state and whether
preventDefault / stopPropagation were called on the event. -/
structure ClickResult where
  state : MachineState
  defaultPrevented : Bool
  propagationStopped : Bool
deriving DecidableEq

/-- Source handleClick: resolve target.closest("a"); when the link is
navigable, prevent default, stop propagation, record the parsed pathname in
pendingPathRef and set isTransitioning.  The inner none branch is unreachable
because navigable links carry a URL. -/
def handleClick (origin : String) (s : MachineState) (e : ClickEvent) : ClickResult :=
  match e.closestLink with
  | none => ⟨s, false, false⟩
  | some link =>
    if isNavigableLink origin s.pathname link then
      match link.url with
      | some u =>
        ⟨{ s with pendingPath := some u.pathname, isTransitioning := true }, true, true⟩
      | none => ⟨s, false, false⟩
    else
      ⟨s, false, false⟩

/-- Result of one event step: the state after the handler and any effect
re-runs, the navigation request emitted (router.push argument), and the
preventDefault / stopPropagation outcome for click events. -/
structure StepResult where
  state : MachineState
  navRequest : Option String
  defaultPrevented : Bool
  propagationStopped : Bool
deriving DecidableEq

/-- One click event: run handleClick, then re-run the effects whose
dependencies changed.  Only isTransitioning can change here, so only the
exit-phase effect can re-run; isEntering is untouched. -/
def clickStep (origin : String) (s : MachineState) (e : ClickEvent) : StepResult :=
  let r := handleClick origin s e
  let s2 := if r.state.isTransitioning = s.isTransitioning then r.state else exitEffect r.state
  ⟨s2, none, r.defaultPrevented, r.propagationStopped⟩

/-- One animationend event dispatched on the wrapper element.  The registered
exit listener (if any) emits router.push with the targetPath captured by its
closure when the exit-animation guard matches; the registered entry listener
resets isEntering and clears pendingPathRef when the entry-animation guard
matches.  Afterwards the entry-phase effect re-runs when isEntering changed;
isTransitioning never changes here, so the exit-phase effect never re-runs. -/
def animEndStep (s : MachineState) (e : AnimEvent) : StepResult :=
  let nav : Option String :=
    match s.exitListener with
    | some targetPath =>
      if createAnimationEndHandler SLIDE_OUT e then some targetPath else none
    | none => none
  let s1 :=
    if s.entryListener && createAnimationEndHandler SLIDE_IN e then
      { s with isEntering := false, pendingPath := none }
    else s
  let s2 := if s1.isEntering = s.isEntering then s1 else entryEffect s1
  ⟨s2, nav, false, false⟩

/-- One path-change notification from the router.  usePathname only notifies
on an actual change, so an equal path is a no-op.  Otherwise the pathname
effect runs, then the exit-phase and entry-phase effects re-run when their
dependency changed, in declaration order. -/
def pathChangeStep (s : MachineState) (p : String) : StepResult :=
  if p = s.pathname then ⟨s, none, false, false⟩
  else
    let s1 := pathnameEffect { s with pathname := p }
    let s2 := if s1.isTransitioning = s.isTransitioning then s1 else exitEffect s1
    let s3 := if s2.isEntering = s.isEntering then s2 else entryEffect s2
    ⟨s3, none, false, false⟩

/-- The external events driving a mounted controller instance. -/
inductive Event where
  | click (e : ClickEvent)
  | animEnd (e : AnimEvent)
  | pathChange (p : String)
deriving DecidableEq

/-- Dispatch one event. -/
def step (origin : String) (s : MachineState) : Event → StepResult
  | .click e => clickStep origin s e
  | .animEnd e => animEndStep s e
  | .pathChange p => pathChangeStep s p

/-- The state right after mount: initial useState / useRef values, then the
initial run of every effect in declaration order (wrapperRef is populated
during render, before effects run; wa models whether it is attached). -/
def mount (p0 : String) (wa : Bool) : MachineState :=
  let s0 : MachineState :=
    { isTransitioning := false, isEntering := false, pendingPath := none,
      isFirstMount := true, pathname := p0, wrapperAttached := wa,
      exitListener := none, entryListener := false }
  entryEffect (exitEffect (pathnameEffect s0))

/-- Run a list of events from a state. -/
def run (origin : String) (s : MachineState) (evs : List Event) : MachineState :=
  evs.foldl (fun s ev => (step origin s ev).state) s

/-- Reachability from a fresh mount under arbitrary events. -/
def Reachable (origin p0 : String) (wa : Bool) (s : MachineState) : Prop :=
  ∃ evs : List Event, run origin (mount p0 wa) evs = s

/-- Reachability from a fresh mount under traces in which no click is
delivered while the entry animation is in flight (steady operation). -/
inductive ReachableNC (origin p0 : String) (wa : Bool) : MachineState → Prop where
  | init : ReachableNC origin p0 wa (mount p0 wa)
  | clickEv {s : MachineState} (e : ClickEvent) :
      ReachableNC origin p0 wa s → s.isEntering = false →
      ReachableNC origin p0 wa (clickStep origin s e).state
  | animEv {s : MachineState} (e : AnimEvent) :
      ReachableNC origin p0 wa s →
      ReachableNC origin p0 wa (animEndStep s e).state
  | pathEv {s : MachineState} (p : String) :
      ReachableNC origin p0 wa s →
      ReachableNC origin p0 wa (pathChangeStep s p).state

/-- The pending-target invariant: the pending path is non-null only while
isTransitioning (isExiting) or isEntering holds. -/
def PendingInv (s : MachineState) : Prop :=
  s.pendingPath = none ∨ s.isTransitioning = true ∨ s.isEntering = true

/-- Concrete document location used in concrete evaluations. -/
def exLoc : Url :=
  { scheme := "https", host := "example.com", port := "",
    pathname := "/", search := "", hash := "" }

/-- The concrete origin string of exLoc. -/
def exOrigin : String := exLoc.origin

/-- A cross-origin URL whose serialization nevertheless starts with the
serialization of the exLoc origin. -/
def exEvil : Url :=
  { scheme := "https", host := "example.com.evil.com", port := "",
    pathname := "/x", search := "", hash := "" }

/-- A same-origin URL with pathname /a. -/
def exA : Url :=
  { scheme := "https", host := "example.com", port := "",
    pathname := "/a", search := "", hash := "" }

/-- A same-origin URL with pathname /b. -/
def exB : Url :=
  { scheme := "https", host := "example.com", port := "",
    pathname := "/b", search := "", hash := "" }

/-- A same-origin URL with pathname /sample. -/
def exSample : Url :=
  { scheme := "https", host := "example.com", port := "",
    pathname := "/sample", search := "", hash := "" }

/-! ## Helper lemmas -/

theorem jsStartsWith_append (s t : String) : jsStartsWith (s ++ t) s = true := by
  simp [jsStartsWith]

theorem origin_eq_of_sameOriginSpec {loc u : Url} (h : sameOriginSpec loc u = true) :
    u.origin = loc.origin := by
  simp only [sameOriginSpec, Bool.and_eq_true, beq_iff_eq] at h
  obtain ⟨⟨h1, h2⟩, h3⟩ := h
  simp [Url.origin, h1, h2, h3]

theorem href_beq_empty_false (u : Url) : (u.href == "") = false := by
  rw [beq_eq_false_iff_ne]
  intro h
  have hd : u.href.data = [] := by rw [h]
  have hsep : ("://" : String).data = [':', '/', '/'] := rfl
  simp [Url.href, Url.origin, String.data_append, hsep] at hd

theorem isNavigableLink_sameOrigin {loc u : Url} {pathname : String}
    (hso : sameOriginSpec loc u = true) (hp : u.pathname ≠ pathname) :
    isNavigableLink loc.origin pathname ⟨some u⟩ = true := by
  have ho := origin_eq_of_sameOriginSpec hso
  have hne := href_beq_empty_false u
  have hstart : isSameOriginLink loc.origin u.href = true := by
    rw [isSameOriginLink]
    have heq : u.href = loc.origin ++ (u.pathname ++ (u.search ++ u.hash)) := by
      rw [Url.href, ho]
      simp [String.append_assoc]
    rw [heq]
    exact jsStartsWith_append _ _
  simp [isNavigableLink, Anchor.href, hne, hstart, bne_iff_ne, hp]

@[simp] theorem exitEffect_isTransitioning (s : MachineState) :
    (exitEffect s).isTransitioning = s.isTransitioning := by
  unfold exitEffect; split <;> rfl

@[simp] theorem exitEffect_isEntering (s : MachineState) :
    (exitEffect s).isEntering = s.isEntering := by
  unfold exitEffect; split <;> rfl

@[simp] theorem exitEffect_pendingPath (s : MachineState) :
    (exitEffect s).pendingPath = s.pendingPath := by
  unfold exitEffect; split <;> rfl

@[simp] theorem exitEffect_isFirstMount (s : MachineState) :
    (exitEffect s).isFirstMount = s.isFirstMount := by
  unfold exitEffect; split <;> rfl

@[simp] theorem exitEffect_pathname (s : MachineState) :
    (exitEffect s).pathname = s.pathname := by
  unfold exitEffect; split <;> rfl

@[simp] theorem exitEffect_wrapperAttached (s : MachineState) :
    (exitEffect s).wrapperAttached = s.wrapperAttached := by
  unfold exitEffect; split <;> rfl

@[simp] theorem exitEffect_entryListener (s : MachineState) :
    (exitEffect s).entryListener = s.entryListener := by
  unfold exitEffect; split <;> rfl

@[simp] theorem entryEffect_isTransitioning (s : MachineState) :
    (entryEffect s).isTransitioning = s.isTransitioning := by
  unfold entryEffect; split <;> rfl

@[simp] theorem entryEffect_isEntering (s : MachineState) :
    (entryEffect s).isEntering = s.isEntering := by
  unfold entryEffect; split <;> rfl

@[simp] theorem entryEffect_pendingPath (s : MachineState) :
    (entryEffect s).pendingPath = s.pendingPath := by
  unfold entryEffect; split <;> rfl

@[simp] theorem entryEffect_isFirstMount (s : MachineState) :
    (entryEffect s).isFirstMount = s.isFirstMount := by
  unfold entryEffect; split <;> rfl

@[simp] theorem entryEffect_pathname (s : MachineState) :
    (entryEffect s).pathname = s.pathname := by
  unfold entryEffect; split <;> rfl

@[simp] theorem entryEffect_wrapperAttached (s : MachineState) :
    (entryEffect s).wrapperAttached = s.wrapperAttached := by
  unfold entryEffect; split <;> rfl

@[simp] theorem entryEffect_exitListener (s : MachineState) :
    (entryEffect s).exitListener = s.exitListener := by
  unfold entryEffect; split <;> rfl

theorem handleClick_chars (origin : String) (s : MachineState) (e : ClickEvent) :
    (handleClick origin s e).state = s ∨
    ∃ q, (handleClick origin s e).state =
      { s with pendingPath := some q, isTransitioning := true } := by
  rcases e with ⟨_ | link⟩
  · exact Or.inl rfl
  · rcases link with ⟨_ | u⟩
    · unfold handleClick
      dsimp only
      split
      · exact Or.inl rfl
      · exact Or.inl rfl
    · unfold handleClick
      dsimp only
      split
      · exact Or.inr ⟨u.pathname, rfl⟩
      · exact Or.inl rfl

theorem clickStep_chars (origin : String) (s : MachineState) (e : ClickEvent) :
    (clickStep origin s e).state = s ∨
    ∃ q, (clickStep origin s e).state.pendingPath = some q ∧
      (clickStep origin s e).state.isTransitioning = true ∧
      (clickStep origin s e).state.isEntering = s.isEntering ∧
      (clickStep origin s e).state.isFirstMount = s.isFirstMount ∧
      (clickStep origin s e).state.pathname = s.pathname ∧
      (clickStep origin s e).state.wrapperAttached = s.wrapperAttached := by
  rcases handleClick_chars origin s e with h | ⟨q, h⟩
  · left
    unfold clickStep
    dsimp only
    rw [h]
    simp
  · right
    refine ⟨q, ?_⟩
    unfold clickStep
    dsimp only
    rw [h]
    split <;> simp

theorem animEndStep_chars (s : MachineState) (e : AnimEvent) :
    (animEndStep s e).state = s ∨
    ((animEndStep s e).state.pendingPath = none ∧
      (animEndStep s e).state.isTransitioning = s.isTransitioning ∧
      (animEndStep s e).state.isEntering = false ∧
      (animEndStep s e).state.isFirstMount = s.isFirstMount ∧
      (animEndStep s e).state.pathname = s.pathname ∧
      (animEndStep s e).state.wrapperAttached = s.wrapperAttached ∧
      (animEndStep s e).state.exitListener = s.exitListener) := by
  unfold animEndStep
  dsimp only
  split
  · right
    split <;> simp
  · left
    simp

theorem pathChangeStep_chars (s : MachineState) (p : String) :
    (pathChangeStep s p).state = s ∨
    ((pathChangeStep s p).state.pendingPath = s.pendingPath ∧
      (pathChangeStep s p).state.isTransitioning = s.isTransitioning ∧
      (pathChangeStep s p).state.isEntering = s.isEntering ∧
      (pathChangeStep s p).state.isFirstMount = false ∧
      (pathChangeStep s p).state.wrapperAttached = s.wrapperAttached) ∨
    ((pathChangeStep s p).state.pendingPath = s.pendingPath ∧
      (pathChangeStep s p).state.isTransitioning = false ∧
      (pathChangeStep s p).state.isEntering = true ∧
      (pathChangeStep s p).state.isFirstMount = s.isFirstMount ∧
      (pathChangeStep s p).state.wrapperAttached = s.wrapperAttached) := by
  unfold pathChangeStep
  split
  · exact Or.inl rfl
  · unfold pathnameEffect
    dsimp only
    split
    · right; right
      constructor
      · split <;> · split <;> simp
      constructor
      · split <;> · split <;> simp
      constructor
      · split <;> · split <;> simp
      constructor
      · split <;> · split <;> simp
      · split <;> · split <;> simp
    · right; left
      constructor
      · split <;> · split <;> simp
      constructor
      · split <;> · split <;> simp
      constructor
      · split <;> · split <;> simp
      constructor
      · split <;> · split <;> simp
      · split <;> · split <;> simp

/-! ## Claims -/

/-- Claim C1 (code bug): the claim states that a click on a link whose
destination is not same-origin (scheme, host and port all matching) leaves
the state unchanged and does not prevent default navigation.  The code
instead tests href.startsWith(window.location.origin), a string-prefix test,
so at origin https://example.com a click on the cross-origin link
https://example.com.evil.com/x (different host, so sameOriginSpec is false)
is intercepted: default is prevented and isTransitioning becomes true. -/
theorem cross_origin_click_intercepted :
    sameOriginSpec exLoc exEvil = false ∧
    (clickStep exOrigin (mount "/" true) ⟨some ⟨some exEvil⟩⟩).defaultPrevented = true ∧
    (clickStep exOrigin (mount "/" true) ⟨some ⟨some exEvil⟩⟩).state.isTransitioning = true ∧
    (clickStep exOrigin (mount "/" true) ⟨some ⟨some exEvil⟩⟩).state.pendingPath = some "/x" := by
  decide

/-- Claim C2: a click on a same-origin link whose destination path differs
from the current path is intercepted: default navigation is cancelled,
propagation is stopped, the destination pathname is recorded as the pending
target and isTransitioning (isExiting) is set, all in this one step. -/
theorem click_same_origin_different_path_intercepts
    (loc : Url) (s : MachineState) (u : Url)
    (hso : sameOriginSpec loc u = true) (hp : u.pathname ≠ s.pathname) :
    (clickStep loc.origin s ⟨some ⟨some u⟩⟩).defaultPrevented = true ∧
    (clickStep loc.origin s ⟨some ⟨some u⟩⟩).propagationStopped = true ∧
    (clickStep loc.origin s ⟨some ⟨some u⟩⟩).state.pendingPath = some u.pathname ∧
    (clickStep loc.origin s ⟨some ⟨some u⟩⟩).state.isTransitioning = true := by
  have hn := isNavigableLink_sameOrigin hso hp
  simp only [clickStep, handleClick, hn, if_true]
  split
  · simp
  · simp only [exitEffect]
    split <;> simp

/-- Witness for claim C2: concrete click on the same-origin link /sample
while at the path / after mount. -/
theorem click_same_origin_different_path_intercepts_witness :
    (clickStep exOrigin (mount "/" true) ⟨some ⟨some exSample⟩⟩).defaultPrevented = true ∧
    (clickStep exOrigin (mount "/" true) ⟨some ⟨some exSample⟩⟩).propagationStopped = true ∧
    (clickStep exOrigin (mount "/" true) ⟨some ⟨some exSample⟩⟩).state.pendingPath = some "/sample" ∧
    (clickStep exOrigin (mount "/" true) ⟨some ⟨some exSample⟩⟩).state.isTransitioning = true :=
  click_same_origin_different_path_intercepts exLoc (mount "/" true) exSample
    (by decide) (by decide)

/-- Claim C3 counterexample: after a click on /a, a second intercepted click
on /b while the exit phase is in flight overwrites the pending target with
/b, yet the exit-animation completion requests navigation to /a: the
exit-phase effect does not re-run (its isTransitioning dependency did not
change), so its registered listener still holds the path captured at the
first click, and the navigation request differs from the last recorded
pending target. -/
theorem second_click_navigation_uses_first_path :
    ((clickStep exOrigin (clickStep exOrigin (mount "/" true) ⟨some ⟨some exA⟩⟩).state
        ⟨some ⟨some exB⟩⟩).state.pendingPath = some "/b") ∧
    ((animEndStep (clickStep exOrigin (clickStep exOrigin (mount "/" true) ⟨some ⟨some exA⟩⟩).state
        ⟨some ⟨some exB⟩⟩).state ⟨"maskFadeOut", true⟩).navRequest = some "/a") := by
  decide

/-- Claim C3 (amended): after exit-animation completion, navigation is
requested with exactly the path held by the registered exit listener, which
is the pending target captured when the exit-phase effect ran at the start
of the exit phase; a second intercepted click while the exit phase is in
flight overwrites the pending target but leaves the registered listener (and
therefore the navigation request) unchanged, because isTransitioning does
not change and the effect does not re-run. -/
theorem exit_nav_uses_captured_path :
    (∀ (s : MachineState) (t : String) (e : AnimEvent),
      s.exitListener = some t → e.animationName = SLIDE_OUT →
      e.targetIsCurrentTarget = true → (animEndStep s e).navRequest = some t) ∧
    (∀ (origin : String) (s : MachineState) (e : ClickEvent),
      s.isTransitioning = true →
      (clickStep origin s e).state.exitListener = s.exitListener) := by
  constructor
  · intro s t e hl hn ht
    unfold animEndStep
    dsimp only
    rw [hl]
    simp [createAnimationEndHandler, hn, ht]
  · intro origin s e hT
    rcases handleClick_chars origin s e with h | ⟨q, h⟩
    · unfold clickStep
      dsimp only
      rw [h]
      simp
    · unfold clickStep
      dsimp only
      rw [h]
      simp [hT]

/-- Witness for claim C3 (amended): the exit completion after a click on /a
requests navigation to /a, and a second click while exiting leaves the
registered exit listener unchanged. -/
theorem exit_nav_uses_captured_path_witness :
    ((animEndStep (clickStep exOrigin (mount "/" true) ⟨some ⟨some exA⟩⟩).state
        ⟨"maskFadeOut", true⟩).navRequest = some "/a") ∧
    ((clickStep exOrigin (clickStep exOrigin (mount "/" true) ⟨some ⟨some exA⟩⟩).state
        ⟨some ⟨some exB⟩⟩).state.exitListener =
      (clickStep exOrigin (mount "/" true) ⟨some ⟨some exA⟩⟩).state.exitListener) :=
  ⟨exit_nav_uses_captured_path.1 _ "/a" ⟨"maskFadeOut", true⟩ (by decide) rfl rfl,
   exit_nav_uses_captured_path.2 exOrigin _ ⟨some ⟨some exB⟩⟩ (by decide)⟩

/-- Claim C4 counterexample: the trace mount at /, click /a, exit-animation
completion, path change to /a, click /b during the entry phase reaches a
state in which isTransitioning (isExiting) and isEntering are both true, so
the claimed invariant does not hold for every reachable state. -/
theorem both_flags_true_reachable :
    ((run exOrigin (mount "/" true)
        [Event.click ⟨some ⟨some exA⟩⟩, Event.animEnd ⟨"maskFadeOut", true⟩,
         Event.pathChange "/a", Event.click ⟨some ⟨some exB⟩⟩]).isTransitioning = true) ∧
    ((run exOrigin (mount "/" true)
        [Event.click ⟨some ⟨some exA⟩⟩, Event.animEnd ⟨"maskFadeOut", true⟩,
         Event.pathChange "/a", Event.click ⟨some ⟨some exB⟩⟩]).isEntering = true) := by
  decide

/-- Claim C4 (amended): along every trace in which no click is delivered
while the entry animation is in flight (steady operation), isTransitioning
(isExiting) and isEntering are never both true; the state right after mount
has both false.  A click intercepted during the entry phase does make both
true, as the counterexample shows. -/
theorem steady_state_flags_exclusive (origin p0 : String) (wa : Bool) :
    ((mount p0 wa).isTransitioning = false ∧ (mount p0 wa).isEntering = false) ∧
    ∀ s : MachineState, ReachableNC origin p0 wa s →
      ¬(s.isTransitioning = true ∧ s.isEntering = true) := by
  constructor
  · exact ⟨rfl, rfl⟩
  · intro s h
    induction h with
    | init =>
      rintro ⟨h1, -⟩
      exact absurd h1 (by simp [mount, pathnameEffect, exitEffect, entryEffect])
    | clickEv e hr hen ih =>
      rename_i s'
      rcases clickStep_chars origin s' e with h | ⟨q, -, -, hE, -⟩
      · rw [h]; exact ih
      · rintro ⟨-, h2⟩
        rw [hE, hen] at h2
        exact Bool.false_ne_true h2
    | animEv e hr ih =>
      rename_i s'
      rcases animEndStep_chars s' e with h | ⟨-, -, hE, -⟩
      · rw [h]; exact ih
      · rintro ⟨-, h2⟩
        rw [hE] at h2
        exact Bool.false_ne_true h2
    | pathEv p hr ih =>
      rename_i s'
      rcases pathChangeStep_chars s' p with h | ⟨-, hT, hE, -⟩ | ⟨-, hT, -⟩
      · rw [h]; exact ih
      · rintro ⟨h1, h2⟩
        rw [hT] at h1
        rw [hE] at h2
        exact ih ⟨h1, h2⟩
      · rintro ⟨h1, -⟩
        rw [hT] at h1
        exact Bool.false_ne_true h1

/-- Witness for claim C4 (amended): applied to the freshly mounted state. -/
theorem steady_state_flags_exclusive_witness :
    (((mount "/" true).isTransitioning = false ∧ (mount "/" true).isEntering = false) ∧
      ¬((mount "/" true).isTransitioning = true ∧ (mount "/" true).isEntering = true)) :=
  ⟨(steady_state_flags_exclusive exOrigin "/" true).1,
   (steady_state_flags_exclusive exOrigin "/" true).2 (mount "/" true) ReachableNC.init⟩

theorem pathChangeStep_entering
    (s : MachineState) (p : String)
    (hfm : s.isFirstMount = false) (hw : s.wrapperAttached = true)
    (hen : s.isEntering = false) (hp : p ≠ s.pathname) :
    (pathChangeStep s p).state.isEntering = true ∧
    (pathChangeStep s p).state.isTransitioning = false ∧
    (pathChangeStep s p).state.entryListener = true ∧
    (pathChangeStep s p).state.pendingPath = s.pendingPath := by
  unfold pathChangeStep
  rw [if_neg hp]
  dsimp only
  unfold pathnameEffect
  cases hT : s.isTransitioning <;>
    simp [hfm, hen, hw, hT, entryEffect, exitEffect]

/-- Claim C5: from any post-mount state with the first-mount flag consumed,
the wrapper attached and no entry in flight, a path-change notification sets
isEntering, and the matching entry-animation completion then returns
isTransitioning, isEntering and the pending target to the idle values
(false, false, none). -/
theorem full_cycle_returns_to_idle
    (s : MachineState) (p : String) (e : AnimEvent)
    (hfm : s.isFirstMount = false) (hw : s.wrapperAttached = true)
    (hen : s.isEntering = false) (hp : p ≠ s.pathname)
    (hn : e.animationName = SLIDE_IN) (ht : e.targetIsCurrentTarget = true) :
    (pathChangeStep s p).state.isEntering = true ∧
    (animEndStep (pathChangeStep s p).state e).state.isTransitioning = false ∧
    (animEndStep (pathChangeStep s p).state e).state.isEntering = false ∧
    (animEndStep (pathChangeStep s p).state e).state.pendingPath = none := by
  obtain ⟨hE, hT, hL, -⟩ := pathChangeStep_entering s p hfm hw hen hp
  refine ⟨hE, ?_, ?_, ?_⟩ <;>
  · unfold animEndStep
    dsimp only
    rw [hL]
    simp [createAnimationEndHandler, hn, ht, hE, hT]

/-- Witness for claim C5: the concrete cycle mount at /, path change to
/sample, entry completion maskFadeIn on the wrapper element. -/
theorem full_cycle_returns_to_idle_witness :
    (pathChangeStep (mount "/" true) "/sample").state.isEntering = true ∧
    (animEndStep (pathChangeStep (mount "/" true) "/sample").state
        ⟨"maskFadeIn", true⟩).state.isTransitioning = false ∧
    (animEndStep (pathChangeStep (mount "/" true) "/sample").state
        ⟨"maskFadeIn", true⟩).state.isEntering = false ∧
    (animEndStep (pathChangeStep (mount "/" true) "/sample").state
        ⟨"maskFadeIn", true⟩).state.pendingPath = none :=
  full_cycle_returns_to_idle (mount "/" true) "/sample" ⟨"maskFadeIn", true⟩
    rfl rfl rfl (by decide) rfl rfl

/-- Claim C6: an animationend event with a non-matching animation name or
with a target other than the listened element triggers nothing: no
navigation request unless the name is maskFadeOut and the target is the
element itself, and no state change unless the name is maskFadeIn and the
target is the element itself. -/
theorem nonmatching_animation_event_no_effect (s : MachineState) (e : AnimEvent) :
    ((e.animationName ≠ SLIDE_OUT ∨ e.targetIsCurrentTarget = false) →
      (animEndStep s e).navRequest = none) ∧
    ((e.animationName ≠ SLIDE_IN ∨ e.targetIsCurrentTarget = false) →
      (animEndStep s e).state = s) := by
  have hout : ∀ nm : String, (e.animationName ≠ nm ∨ e.targetIsCurrentTarget = false) →
      createAnimationEndHandler nm e = false := by
    intro nm h
    rcases h with h | h
    · simp [createAnimationEndHandler, h]
    · simp [createAnimationEndHandler, h]
  constructor
  · intro h
    unfold animEndStep
    dsimp only
    rw [hout SLIDE_OUT h]
    rcases hEL : s.exitListener with _ | t <;> simp [hEL]
  · intro h
    unfold animEndStep
    dsimp only
    rw [hout SLIDE_IN h]
    simp

/-- Witness for claim C6: an event named other than both animation names,
delivered to the element itself, right after mount. -/
theorem nonmatching_animation_event_no_effect_witness :
    (animEndStep (mount "/" true) ⟨"other", true⟩).navRequest = none ∧
    (animEndStep (mount "/" true) ⟨"other", true⟩).state = mount "/" true :=
  ⟨(nonmatching_animation_event_no_effect (mount "/" true) ⟨"other", true⟩).1
      (Or.inl (by decide)),
   (nonmatching_animation_event_no_effect (mount "/" true) ⟨"other", true⟩).2
      (Or.inl (by decide))⟩

/-- Claim C7: on first mount no entry animation fires regardless of the
initial path, and the initial effect run consumes the first-mount flag; the
flag never returns to true after any later event (irreversible one-shot);
and once it is consumed, every path-change notification to a different path
sets isEntering. -/
theorem first_mount_one_shot :
    (∀ (p0 : String) (wa : Bool),
      (mount p0 wa).isEntering = false ∧ (mount p0 wa).isFirstMount = false) ∧
    (∀ (origin : String) (s : MachineState) (ev : Event),
      s.isFirstMount = false → (step origin s ev).state.isFirstMount = false) ∧
    (∀ (s : MachineState) (p : String),
      s.isFirstMount = false → p ≠ s.pathname →
      (pathChangeStep s p).state.isEntering = true) := by
  refine ⟨fun p0 wa => ⟨rfl, rfl⟩, ?_, ?_⟩
  · intro origin s ev h
    cases ev with
    | click e =>
      rcases clickStep_chars origin s e with hc | ⟨q, -, -, -, hF, -⟩
      · show (clickStep origin s e).state.isFirstMount = false
        rw [hc]; exact h
      · show (clickStep origin s e).state.isFirstMount = false
        rw [hF]; exact h
    | animEnd e =>
      rcases animEndStep_chars s e with hc | ⟨-, -, -, hF, -⟩
      · show (animEndStep s e).state.isFirstMount = false
        rw [hc]; exact h
      · show (animEndStep s e).state.isFirstMount = false
        rw [hF]; exact h
    | pathChange p =>
      rcases pathChangeStep_chars s p with hc | ⟨-, -, -, hF, -⟩ | ⟨-, -, -, hF, -⟩
      · show (pathChangeStep s p).state.isFirstMount = false
        rw [hc]; exact h
      · show (pathChangeStep s p).state.isFirstMount = false
        exact hF
      · show (pathChangeStep s p).state.isFirstMount = false
        rw [hF]; exact h
  · intro s p h hp
    unfold pathChangeStep
    rw [if_neg hp]
    dsimp only
    unfold pathnameEffect
    simp only [h, Bool.not_false, if_true]
    split <;> · split <;> simp

/-- Witness for claim C7: the one-shot flag and the entry trigger at the
concrete path change from / to /sample after mount. -/
theorem first_mount_one_shot_witness :
    (step exOrigin (mount "/" true) (Event.pathChange "/sample")).state.isFirstMount = false ∧
    (pathChangeStep (mount "/" true) "/sample").state.isEntering = true :=
  ⟨first_mount_one_shot.2.1 exOrigin (mount "/" true) (Event.pathChange "/sample") rfl,
   first_mount_one_shot.2.2 (mount "/" true) "/sample" rfl (by decide)⟩

/-- Claim C8: when the registered exit listener fires on a matching
exit-animation completion, the step only emits the navigation request with
the captured path; the whole state, in particular isTransitioning
(isExiting) and the pending target, is left unchanged. -/
theorem exit_completion_only_navigates
    (s : MachineState) (t : String) (e : AnimEvent)
    (hl : s.exitListener = some t)
    (hn : e.animationName = SLIDE_OUT) (ht : e.targetIsCurrentTarget = true) :
    (animEndStep s e).navRequest = some t ∧ (animEndStep s e).state = s := by
  have hso : createAnimationEndHandler SLIDE_OUT e = true := by
    simp [createAnimationEndHandler, hn, ht]
  have hsi : createAnimationEndHandler SLIDE_IN e = false := by
    unfold createAnimationEndHandler
    rw [hn]
    have hne : ((SLIDE_OUT : String) == SLIDE_IN) = false := by decide
    rw [hne, Bool.false_and]
  unfold animEndStep
  dsimp only
  rw [hl, hso, hsi]
  simp

/-- Witness for claim C8: exit completion after the intercepted click on
/sample emits the navigation request and changes no state. -/
theorem exit_completion_only_navigates_witness :
    (animEndStep (clickStep exOrigin (mount "/" true) ⟨some ⟨some exSample⟩⟩).state
        ⟨"maskFadeOut", true⟩).navRequest = some "/sample" ∧
    (animEndStep (clickStep exOrigin (mount "/" true) ⟨some ⟨some exSample⟩⟩).state
        ⟨"maskFadeOut", true⟩).state =
      (clickStep exOrigin (mount "/" true) ⟨some ⟨some exSample⟩⟩).state :=
  exit_completion_only_navigates
    (clickStep exOrigin (mount "/" true) ⟨some ⟨some exSample⟩⟩).state
    "/sample" ⟨"maskFadeOut", true⟩ (by decide) rfl rfl

theorem pendingInv_preserved (origin : String) (s : MachineState) (ev : Event)
    (h : PendingInv s) : PendingInv (step origin s ev).state := by
  cases ev with
  | click e =>
    show PendingInv (clickStep origin s e).state
    rcases clickStep_chars origin s e with hc | ⟨q, -, hT, -⟩
    · rw [hc]; exact h
    · exact Or.inr (Or.inl hT)
  | animEnd e =>
    show PendingInv (animEndStep s e).state
    rcases animEndStep_chars s e with hc | ⟨hP, -⟩
    · rw [hc]; exact h
    · exact Or.inl hP
  | pathChange p =>
    show PendingInv (pathChangeStep s p).state
    rcases pathChangeStep_chars s p with hc | ⟨hP, hT, hE, -⟩ | ⟨-, -, hE, -⟩
    · rw [hc]; exact h
    · unfold PendingInv
      rw [hP, hT, hE]
      exact h
    · exact Or.inr (Or.inr hE)

theorem pendingInv_run (origin : String) (evs : List Event) (s : MachineState)
    (h : PendingInv s) : PendingInv (run origin s evs) := by
  induction evs generalizing s with
  | nil => exact h
  | cons ev evs ih => exact ih _ (pendingInv_preserved origin s ev h)

/-- Claim C9: in every reachable state, the pending target is non-null only
while isTransitioning (isExiting) or isEntering is true. -/
theorem pending_only_during_transition
    (origin p0 : String) (wa : Bool) (s : MachineState)
    (h : Reachable origin p0 wa s) (hp : s.pendingPath ≠ none) :
    s.isTransitioning = true ∨ s.isEntering = true := by
  obtain ⟨evs, hrun⟩ := h
  have hinv : PendingInv (run origin (mount p0 wa) evs) :=
    pendingInv_run origin evs (mount p0 wa) (Or.inl rfl)
  rw [hrun] at hinv
  rcases hinv with h0 | h1 | h2
  · exact absurd h0 hp
  · exact Or.inl h1
  · exact Or.inr h2

/-- Witness for claim C9: the state reached by the single intercepted click
on /sample has a pending target, and indeed isTransitioning holds there. -/
theorem pending_only_during_transition_witness :
    (run exOrigin (mount "/" true) [Event.click ⟨some ⟨some exSample⟩⟩]).isTransitioning = true ∨
    (run exOrigin (mount "/" true) [Event.click ⟨some ⟨some exSample⟩⟩]).isEntering = true :=
  pending_only_during_transition exOrigin "/" true _
    ⟨[Event.click ⟨some ⟨some exSample⟩⟩], rfl⟩ (by decide)

/-- Claim C10: when the exit-phase effect runs with a null pending target or
a detached wrapper element it registers no listener, and with no registered
exit listener no animationend event produces a navigation request; moreover
such an event leaves the absent listener and the exiting flag as they are,
so the system stays parked in the exiting phase. -/
theorem no_exit_listener_no_navigation :
    (∀ s : MachineState, s.pendingPath = none ∨ s.wrapperAttached = false →
      (exitEffect s).exitListener = none) ∧
    (∀ (s : MachineState) (e : AnimEvent), s.exitListener = none →
      (animEndStep s e).navRequest = none ∧
      (animEndStep s e).state.exitListener = none ∧
      (animEndStep s e).state.isTransitioning = s.isTransitioning) := by
  constructor
  · intro s h
    unfold exitEffect
    rcases h with h | h <;> simp [h]
  · intro s e hl
    unfold animEndStep
    dsimp only
    rw [hl]
    refine ⟨rfl, ?_, ?_⟩
    · split
      · split <;> simp [hl]
      · split <;> simp [hl]
    · split
      · split <;> simp
      · split <;> simp

/-- Witness for claim C10: the mounted state has no exit listener, and the
exit-animation completion event produces no navigation there. -/
theorem no_exit_listener_no_navigation_witness :
    (exitEffect (mount "/" true)).exitListener = none ∧
    ((animEndStep (mount "/" true) ⟨"maskFadeOut", true⟩).navRequest = none ∧
     (animEndStep (mount "/" true) ⟨"maskFadeOut", true⟩).state.exitListener = none ∧
     (animEndStep (mount "/" true) ⟨"maskFadeOut", true⟩).state.isTransitioning =
       (mount "/" true).isTransitioning) :=
  ⟨no_exit_listener_no_navigation.1 (mount "/" true) (Or.inl rfl),
   no_exit_listener_no_navigation.2 (mount "/" true) ⟨"maskFadeOut", true⟩ rfl⟩

end PageTransition
